import Mathlib

/-!
Shallow embedding of `model.py` from the lichess-bot repository fragment:
the `Challenge`, `Game` and `Player` value objects and their policy /
deadline predicates.  Time is modelled explicitly: every operation that in
Python reads the wall clock takes a `now : ℚ` argument, and a `Timer`
stores its duration together with the instant at which it was armed.
Configuration values that in Python may be `math.inf` are modelled in
`WithTop ℤ` with `⊤` standing for infinity.
-/

namespace LichessBot

/-- Modelled from the spec: the external `Timer` collaborator (module
`timer`, not part of this fragment's sources).  A countdown armed at
`start` for `duration` seconds. -/
structure Timer where
  duration : ℚ
  start : ℚ
deriving DecidableEq, Repr

/-- Modelled from the spec: a timer is expired once its deadline has
passed at instant `now`. -/
def Timer.is_expired (t : Timer) (now : ℚ) : Bool :=
  decide (t.start + t.duration ≤ now)

/-- Modelled from the spec: the external `Configuration` collaborator,
restricted to the policy fields `model.py` reads.  `⊤` in a `WithTop ℤ`
field stands for `math.inf`; `none` in `max_recent_bot_challenges` stands
for "no limit configured". -/
structure Configuration where
  accept_bot : Bool
  only_bot : Bool
  time_controls : List String
  max_increment : WithTop ℤ
  min_increment : ℤ
  max_base : WithTop ℤ
  min_base : ℤ
  max_days : WithTop ℤ
  min_days : ℤ
  variants : List String
  modes : List String
  block_list : List String
  max_recent_bot_challenges : Option ℕ

/-- The `timeControl` object of a challenge-creation payload. -/
structure TimeControlInfo where
  increment : Option ℤ
  limit : Option ℤ
  daysPerTurn : Option ℤ
deriving DecidableEq, Repr

/-- The `challenger` object of a challenge-creation payload. -/
structure ChallengerInfo where
  title : Option String
  name : Option String
  rating : Option ℤ
deriving DecidableEq, Repr

/-- A challenge-creation payload (`c_info` in `Challenge.__init__`). -/
structure ChallengeInfo where
  id : String
  rated : Bool
  variant_key : String
  perf_name : String
  speed : String
  timeControl : Option TimeControlInfo
  challenger : Option ChallengerInfo
deriving DecidableEq, Repr

/-- The fields a `Challenge` stores after `__init__`. -/
structure Challenge where
  id : String
  rated : Bool
  variant : String
  perf_name : String
  speed : String
  increment : Option ℤ
  base : Option ℤ
  days : Option ℤ
  challenger_title : Option String
  challenger_is_bot : Bool
  challenger_master_title : Option String
  challenger_name : String
  challenger_rating_int : ℤ
  from_self : Bool
deriving DecidableEq, Repr

/-- Embeds `Challenge.__init__(c_info, user_profile)`: builds the stored fields
from the payload and the local account's username. -/
def Challenge.init (c_info : ChallengeInfo) (username : String) : Challenge :=
  let tc := c_info.timeControl
  let challenger := c_info.challenger
  let challenger_title := challenger.bind (fun ch => ch.title)
  let challenger_is_bot := challenger_title == some "BOT"
  let challenger_name := (challenger.bind (fun ch => ch.name)).getD "Anonymous"
  { id := c_info.id
    rated := c_info.rated
    variant := c_info.variant_key
    perf_name := c_info.perf_name
    speed := c_info.speed
    increment := tc.bind (fun t => t.increment)
    base := tc.bind (fun t => t.limit)
    days := tc.bind (fun t => t.daysPerTurn)
    challenger_title := challenger_title
    challenger_is_bot := challenger_is_bot
    challenger_master_title := if challenger_is_bot then none else challenger_title
    challenger_name := challenger_name
    challenger_rating_int := (challenger.bind (fun ch => ch.rating)).getD 0
    from_self := challenger_name == username }

/-- Embeds `Challenge.is_supported_variant`. -/
def Challenge.is_supported_variant (c : Challenge) (cfg : Configuration) : Bool :=
  decide (c.variant ∈ cfg.variants)

/-- Embeds `Challenge.is_supported_time_control`: speed gate first, then branch
on game type exactly as the Python `if`/`elif`/`else` does. -/
def Challenge.is_supported_time_control (c : Challenge) (cfg : Configuration) : Bool :=
  if c.speed ∉ cfg.time_controls then
    false
  else
    match c.base, c.increment with
    | some b, some i =>
        -- Normal clock game
        decide (cfg.min_increment ≤ i) && decide ((i : WithTop ℤ) ≤ cfg.max_increment)
          && decide (cfg.min_base ≤ b) && decide ((b : WithTop ℤ) ≤ cfg.max_base)
    | _, _ =>
        match c.days with
        | some d =>
            -- Correspondence game
            decide (cfg.min_days ≤ d) && decide ((d : WithTop ℤ) ≤ cfg.max_days)
        | none =>
            -- Unlimited game
            decide (cfg.max_days = ⊤)

/-- Embeds `Challenge.is_supported_mode`. -/
def Challenge.is_supported_mode (c : Challenge) (cfg : Configuration) : Bool :=
  decide ((if c.rated then "rated" else "casual") ∈ cfg.modes)

/-- The caller-owned `recent_bot_challenges` defaultdict: challenger name
to list of timers, missing names mapping to `[]`. -/
def RecentMap : Type := String → List Timer

/-- Embeds `Challenge.is_supported_recent`: prunes expired timers for this
challenger's name, then pass unless a bot challenger has reached the
configured limit.  Returns the decision together with the updated map
(the Python code mutates the map in place). -/
def Challenge.is_supported_recent (c : Challenge) (cfg : Configuration)
    (m : RecentMap) (now : ℚ) : Bool × RecentMap :=
  let pruned : RecentMap := fun name =>
    if name = c.challenger_name then
      (m c.challenger_name).filter (fun t => ! t.is_expired now)
    else m name
  let ok : Bool :=
    !c.challenger_is_bot ||
      match cfg.max_recent_bot_challenges with
      | none => true
      | some k => decide ((pruned c.challenger_name).length < k)
  (ok, pruned)

/-- Embeds `Challenge.decline_due_to`. -/
def Challenge.decline_due_to (requirement_met : Bool) (decline_reason : String) :
    Option String :=
  if requirement_met then none else some decline_reason

/-- The body of `Challenge.is_supported` inside the `try`: the ordered,
short-circuiting decline chain.  The rate-limiting check (which updates
the map) runs only if every earlier check passed, mirroring Python's
lazy `or` chain. -/
def Challenge.is_supported_inner (c : Challenge) (cfg : Configuration)
    (m : RecentMap) (now : ℚ) : (Bool × Option String) × RecentMap :=
  if c.from_self then
    ((true, none), m)
  else
    let first_six : Option String :=
      (Challenge.decline_due_to (cfg.accept_bot || !c.challenger_is_bot) "noBot").orElse fun _ =>
      (Challenge.decline_due_to (!cfg.only_bot || c.challenger_is_bot) "onlyBot").orElse fun _ =>
      (Challenge.decline_due_to (c.is_supported_time_control cfg) "timeControl").orElse fun _ =>
      (Challenge.decline_due_to (c.is_supported_variant cfg) "variant").orElse fun _ =>
      (Challenge.decline_due_to (c.is_supported_mode cfg)
        (if c.rated then "casual" else "rated")).orElse fun _ =>
      (Challenge.decline_due_to (!(cfg.block_list.contains c.challenger_name)) "generic")
    match first_six with
    | some r => ((false, some r), m)
    | none =>
        let res := c.is_supported_recent cfg m now
        let d := Challenge.decline_due_to res.1 "later"
        ((d.isNone, d), res.2)

/-- The `except Exception` boundary of `Challenge.is_supported`: an
evaluation that raised is converted to a decline with reason
`"generic"`, leaving the map as it was. -/
def is_supported_catch (body : Except String ((Bool × Option String) × RecentMap))
    (m : RecentMap) : (Bool × Option String) × RecentMap :=
  match body with
  | Except.ok v => v
  | Except.error _ => ((false, some "generic"), m)

/-- Embeds `Challenge.is_supported`: the decline chain wrapped in the
`try`/`except` boundary. -/
def Challenge.is_supported (c : Challenge) (cfg : Configuration)
    (m : RecentMap) (now : ℚ) : (Bool × Option String) × RecentMap :=
  is_supported_catch (Except.ok (c.is_supported_inner cfg m now)) m

/-- Embeds `Challenge.score`. -/
def Challenge.score (c : Challenge) : ℤ :=
  let rated_bonus : ℤ := if c.rated then 200 else 0
  let titled_bonus : ℤ := if c.challenger_master_title.isSome then 200 else 0
  c.challenger_rating_int + rated_bonus + titled_bonus

/-- The `white`/`black` objects of a game-creation payload. -/
structure PlayerJson where
  name : Option String
  title : Option String
  rating : Option ℤ
  provisional : Option Bool
  aiLevel : Option ℤ
deriving DecidableEq, Repr

/-- The fields a `Player` stores after `__init__`. -/
structure Player where
  name : Option String
  title : Option String
  rating : Option ℤ
  provisional : Option Bool
  aiLevel : Option ℤ
deriving DecidableEq, Repr

/-- Embeds `Player.__init__(json)`. -/
def Player.init (j : PlayerJson) : Player :=
  { name := j.name
    title := j.title
    rating := j.rating
    provisional := j.provisional
    aiLevel := j.aiLevel }

/-- The `clock` object of a game-creation payload. -/
structure ClockInfo where
  initial : Option ℤ
  increment : Option ℤ
deriving DecidableEq, Repr

/-- The `state` object of a game-creation payload.  The `moves` field is
the server's space-separated move string, modelled as its character
list (Python's `len` on it counts characters). -/
structure GameState where
  moves : List Char
  wtime : ℤ
  btime : ℤ
deriving DecidableEq, Repr

/-- A game-creation payload (`json` in `Game.__init__`). -/
structure GameJson where
  id : Option String
  speed : Option String
  clock : Option ClockInfo
  perf : Option (Option String)
  variant_name : String
  white : PlayerJson
  black : PlayerJson
  initialFen : Option String
  state : GameState
deriving DecidableEq, Repr

/-- The fields a `Game` stores after `__init__`. -/
structure Game where
  username : String
  id : Option String
  speed : Option String
  clock_initial : ℤ
  clock_increment : ℤ
  perf_name : String
  variant_name : String
  white : Player
  black : Player
  initial_fen : Option String
  state : GameState
  is_white : Bool
  my_color : String
  opponent_color : String
  me : Player
  opponent : Player
  base_url : String
  abort_time : Timer
  terminate_time : Timer
  disconnect_time : Timer
deriving DecidableEq, Repr

/-- The constant `1000 * 3600 * 24 * 365 * 10` from `Game.__init__`. -/
def ten_years_in_ms : ℤ := 1000 * 3600 * 24 * 365 * 10

/-- Embeds `Game.__init__(json, username, base_url, abort_time)`, armed at
instant `now`. -/
def Game.init (json : GameJson) (username : String) (base_url : String)
    (abort_time : ℚ) (now : ℚ) : Game :=
  let clock := json.clock.getD ⟨none, none⟩
  let clock_initial := clock.initial.getD ten_years_in_ms
  let clock_increment := clock.increment.getD 0
  let white := Player.init json.white
  let black := Player.init json.black
  let is_white := (white.name.getD "").toLower == username.toLower
  { username := username
    id := json.id
    speed := json.speed
    clock_initial := clock_initial
    clock_increment := clock_increment
    perf_name := (json.perf.getD none).getD "{perf?}"
    variant_name := json.variant_name
    white := white
    black := black
    initial_fen := json.initialFen
    state := json.state
    is_white := is_white
    my_color := if is_white then "white" else "black"
    opponent_color := if is_white then "black" else "white"
    me := if is_white then white else black
    opponent := if is_white then black else white
    base_url := base_url
    abort_time := ⟨abort_time, now⟩
    terminate_time := ⟨((clock_initial : ℚ) + (clock_increment : ℚ)) / 1000 + abort_time + 60, now⟩
    disconnect_time := ⟨0, now⟩ }

/-- Embeds `Game.is_abortable`: the moves string is shorter than 6 characters. -/
def Game.is_abortable (g : Game) : Bool :=
  decide (g.state.moves.length < 6)

/-- Embeds `Game.ping(abort_in, terminate_in, disconnect_in)` at instant `now`. -/
def Game.ping (g : Game) (abort_in terminate_in disconnect_in : ℚ) (now : ℚ) : Game :=
  { g with
    abort_time := if g.is_abortable then ⟨abort_in, now⟩ else g.abort_time
    terminate_time := ⟨terminate_in, now⟩
    disconnect_time := ⟨disconnect_in, now⟩ }

/-- Embeds `Game.should_abort_now`. -/
def Game.should_abort_now (g : Game) (now : ℚ) : Bool :=
  g.is_abortable && g.abort_time.is_expired now

/-- Embeds `Game.should_terminate_now`. -/
def Game.should_terminate_now (g : Game) (now : ℚ) : Bool :=
  g.terminate_time.is_expired now

/-- Embeds `Game.should_disconnect_now`. -/
def Game.should_disconnect_now (g : Game) (now : ℚ) : Bool :=
  g.disconnect_time.is_expired now

/-- Space-join a list of moves into the server's move string, as a
character list: how a `state.moves` payload recording a given sequence
of played moves is laid out. -/
def joinMoves : List (List Char) → List Char
  | [] => []
  | [m] => m
  | m :: rest => m ++ ' ' :: joinMoves rest

/-- The spec's ordered list of acceptance checks with their decline
reasons: bot acceptance, only-bot, time control, variant, mode (labelled
with the opposite of the offered mode), block list, rate limiting. -/
def specCheckList (c : Challenge) (cfg : Configuration) (m : RecentMap) (now : ℚ) :
    List (Bool × String) :=
  [(cfg.accept_bot || !c.challenger_is_bot, "noBot"),
   (!cfg.only_bot || c.challenger_is_bot, "onlyBot"),
   (c.is_supported_time_control cfg, "timeControl"),
   (c.is_supported_variant cfg, "variant"),
   (c.is_supported_mode cfg, if c.rated then "casual" else "rated"),
   (!(cfg.block_list.contains c.challenger_name), "generic"),
   ((c.is_supported_recent cfg m now).1, "later")]

/-- The spec's first-failure-wins rule: the reason attached to the first
check in `specCheckList` that fails, if any. -/
def firstDeclineReason (c : Challenge) (cfg : Configuration) (m : RecentMap) (now : ℚ) :
    Option String :=
  ((specCheckList c cfg m now).find? (fun p => !p.1)).map (fun p => p.2)

/-- Joining at least as many nonempty moves as `ms` holds yields at
least `ms.length` characters. -/
theorem joinMoves_length_ge (ms : List (List Char)) (hne : ∀ m ∈ ms, m ≠ []) :
    ms.length ≤ (joinMoves ms).length := by
  induction ms with
  | nil => simp [joinMoves]
  | cons m rest ih =>
    cases rest with
    | nil =>
      simpa [joinMoves] using List.length_pos.mpr (hne m (List.mem_cons_self m _))
    | cons r rs =>
      have h1 : 1 ≤ m.length := List.length_pos.mpr (hne m (List.mem_cons_self m _))
      have ih2 : (r :: rs).length ≤ (joinMoves (r :: rs)).length :=
        ih (fun x hx => hne x (List.mem_cons_of_mem m hx))
      simp only [joinMoves, List.length_append, List.length_cons] at *
      omega

/-- The empty recent-challenges map. -/
def emptyRecent : RecentMap := fun _ => []

/-- A permissive concrete configuration used to instantiate theorems. -/
def cfgOpen : Configuration :=
  { accept_bot := true
    only_bot := false
    time_controls := ["blitz", "rapid"]
    max_increment := (180 : ℤ)
    min_increment := 0
    max_base := (10800 : ℤ)
    min_base := 0
    max_days := ⊤
    min_days := 1
    variants := ["standard"]
    modes := ["casual", "rated"]
    block_list := []
    max_recent_bot_challenges := some 2 }

/-- C8: a challenge whose challenger name equals the local username is
self-originated, and `is_supported` accepts it with no reason, leaving
the recent-challenges map untouched, whatever the configuration. -/
theorem c8_self_originated_accepted (info : ChallengeInfo) (username : String)
    (cfg : Configuration) (m : RecentMap) (now : ℚ)
    (h : (Challenge.init info username).challenger_name = username) :
    (Challenge.init info username).is_supported cfg m now = ((true, none), m) := by
  simp only [Challenge.init] at h
  simp [Challenge.is_supported, is_supported_catch, Challenge.is_supported_inner,
    Challenge.init, h]

/-- A concrete payload naming the local account as challenger. -/
def infoSelf : ChallengeInfo :=
  { id := "abcd1234"
    rated := true
    variant_key := "standard"
    perf_name := "Blitz"
    speed := "blitz"
    timeControl := some { increment := some 2, limit := some 300, daysPerTurn := none }
    challenger := some { title := none, name := some "myaccount", rating := some 1500 } }

theorem c8_self_originated_accepted_witness :
    (Challenge.init infoSelf "myaccount").is_supported cfgOpen emptyRecent 0 =
      ((true, none), emptyRecent) :=
  c8_self_originated_accepted infoSelf "myaccount" cfgOpen emptyRecent 0 rfl

/-- C3: `is_supported` is the decline chain behind the catch boundary;
the boundary returns the chain's value when evaluation succeeds and
converts any raised error into a `(false, "generic")` decline, so no
error escapes `is_supported`. -/
theorem c3_no_exception_escapes :
    (∀ (c : Challenge) (cfg : Configuration) (m : RecentMap) (now : ℚ),
      c.is_supported cfg m now =
        is_supported_catch (Except.ok (c.is_supported_inner cfg m now)) m)
    ∧ ∀ (e : String) (m : RecentMap),
        is_supported_catch (Except.error e) m = ((false, some "generic"), m) :=
  ⟨fun _ _ _ _ => rfl, fun _ _ => rfl⟩

/-- C4: `is_supported_recent` prunes the expired timers of the
challenger's entry (leaving other entries alone) and passes exactly when
the challenger is not a bot, or no limit is configured, or the surviving
count is below the limit. -/
theorem c4_recent_rate_limit (c : Challenge) (cfg : Configuration) (m : RecentMap) (now : ℚ) :
    (∀ name, (c.is_supported_recent cfg m now).2 name =
        (if name = c.challenger_name then
          (m c.challenger_name).filter (fun t => ! t.is_expired now)
        else m name))
    ∧ ((c.is_supported_recent cfg m now).1 = true ↔
        (c.challenger_is_bot = false ∨ cfg.max_recent_bot_challenges = none ∨
          ∃ k, cfg.max_recent_bot_challenges = some k ∧
            ((m c.challenger_name).filter (fun t => ! t.is_expired now)).length < k)) := by
  constructor
  · intro name
    rfl
  · cases hb : c.challenger_is_bot <;>
      cases ho : cfg.max_recent_bot_challenges <;>
        simp [Challenge.is_supported_recent, hb, ho]

/-- C6: `ping` re-arms the terminate and disconnect timers to the given
delays unconditionally, re-arms the abort timer only while the game is
abortable, and changes no other field. -/
theorem c6_ping_frame (g : Game) (a t d now : ℚ) :
    (g.ping a t d now).abort_time =
        (if g.is_abortable then (⟨a, now⟩ : Timer) else g.abort_time)
    ∧ (g.ping a t d now).terminate_time = (⟨t, now⟩ : Timer)
    ∧ (g.ping a t d now).disconnect_time = (⟨d, now⟩ : Timer)
    ∧ (g.ping a t d now).username = g.username
    ∧ (g.ping a t d now).id = g.id
    ∧ (g.ping a t d now).speed = g.speed
    ∧ (g.ping a t d now).clock_initial = g.clock_initial
    ∧ (g.ping a t d now).clock_increment = g.clock_increment
    ∧ (g.ping a t d now).perf_name = g.perf_name
    ∧ (g.ping a t d now).variant_name = g.variant_name
    ∧ (g.ping a t d now).white = g.white
    ∧ (g.ping a t d now).black = g.black
    ∧ (g.ping a t d now).initial_fen = g.initial_fen
    ∧ (g.ping a t d now).state = g.state
    ∧ (g.ping a t d now).is_white = g.is_white
    ∧ (g.ping a t d now).my_color = g.my_color
    ∧ (g.ping a t d now).opponent_color = g.opponent_color
    ∧ (g.ping a t d now).me = g.me
    ∧ (g.ping a t d now).opponent = g.opponent
    ∧ (g.ping a t d now).base_url = g.base_url :=
  ⟨rfl, rfl, rfl, rfl, rfl, rfl, rfl, rfl, rfl, rfl,
   rfl, rfl, rfl, rfl, rfl, rfl, rfl, rfl, rfl, rfl⟩

/-- C10: a constructed game decides `is_white` by comparing the white
player's name (empty when absent) with the username case-insensitively,
and `my_color`, `opponent_color`, `me`, `opponent` all follow
`is_white` consistently. -/
theorem c10_color_consistency (j : GameJson) (u bu : String) (abt now : ℚ) :
    (Game.init j u bu abt now).is_white =
        ((j.white.name.getD "").toLower == u.toLower)
    ∧ (Game.init j u bu abt now).my_color =
        (if (Game.init j u bu abt now).is_white then "white" else "black")
    ∧ (Game.init j u bu abt now).opponent_color =
        (if (Game.init j u bu abt now).is_white then "black" else "white")
    ∧ (Game.init j u bu abt now).me =
        (if (Game.init j u bu abt now).is_white then (Game.init j u bu abt now).white
         else (Game.init j u bu abt now).black)
    ∧ (Game.init j u bu abt now).opponent =
        (if (Game.init j u bu abt now).is_white then (Game.init j u bu abt now).black
         else (Game.init j u bu abt now).white) :=
  ⟨rfl, rfl, rfl, rfl, rfl⟩

/-- C2: a disallowed speed is rejected outright; with an allowed speed a
normal clock game is accepted iff increment and base sit in their
inclusive ranges, a correspondence game iff days-per-turn sits in its
range, and an unlimited game iff max-days is infinite. -/
theorem c2_time_control_cases (c : Challenge) (cfg : Configuration) :
    (c.speed ∉ cfg.time_controls → c.is_supported_time_control cfg = false)
    ∧ (c.speed ∈ cfg.time_controls →
        (∀ b i, c.base = some b → c.increment = some i →
          (c.is_supported_time_control cfg = true ↔
            (cfg.min_increment ≤ i ∧ (i : WithTop ℤ) ≤ cfg.max_increment ∧
              cfg.min_base ≤ b ∧ (b : WithTop ℤ) ≤ cfg.max_base)))
        ∧ ((c.base = none ∨ c.increment = none) →
            (∀ d, c.days = some d →
              (c.is_supported_time_control cfg = true ↔
                (cfg.min_days ≤ d ∧ (d : WithTop ℤ) ≤ cfg.max_days)))
            ∧ (c.days = none →
                (c.is_supported_time_control cfg = true ↔ cfg.max_days = ⊤)))) := by
  constructor
  · intro h
    simp [Challenge.is_supported_time_control, h]
  · intro h
    refine ⟨?_, ?_⟩
    · intro b i hb hi
      simp [Challenge.is_supported_time_control, h, hb, hi, and_assoc]
    · intro hne
      constructor
      · intro d hd
        rcases hne with h0 | h0
        · simp [Challenge.is_supported_time_control, h, h0, hd]
        · cases hb : c.base <;>
            simp [Challenge.is_supported_time_control, h, h0, hb, hd]
      · intro hd
        rcases hne with h0 | h0
        · simp [Challenge.is_supported_time_control, h, h0, hd]
        · cases hb : c.base <;>
            simp [Challenge.is_supported_time_control, h, h0, hb, hd]

/-- A concrete normal-clock challenge from another account. -/
def chalClock : Challenge :=
  { id := "clk1"
    rated := true
    variant := "standard"
    perf_name := "Blitz"
    speed := "blitz"
    increment := some 2
    base := some 300
    days := none
    challenger_title := none
    challenger_is_bot := false
    challenger_master_title := none
    challenger_name := "opponent1"
    challenger_rating_int := 1700
    from_self := false }

theorem c2_time_control_cases_witness :
    chalClock.is_supported_time_control cfgOpen = true :=
  (((c2_time_control_cases chalClock cfgOpen).2 (by decide)).1 300 2 rfl rfl).mpr
    (by decide)

/-- C9: with days-per-turn absent and base and increment not both
present, `is_supported_time_control` takes the unlimited branch: the
answer is allowed-speed and infinite max-days, with the lone present
clock field never compared to its bounds. -/
theorem c9_unlimited_branch (c : Challenge) (cfg : Configuration)
    (hd : c.days = none) (hnorm : c.base = none ∨ c.increment = none) :
    c.is_supported_time_control cfg =
      (decide (c.speed ∈ cfg.time_controls) && decide (cfg.max_days = ⊤)) := by
  by_cases hs : c.speed ∈ cfg.time_controls
  · rcases hnorm with h0 | h0
    · simp [Challenge.is_supported_time_control, hs, h0, hd]
    · cases hb : c.base <;>
        simp [Challenge.is_supported_time_control, hs, h0, hb, hd]
  · simp [Challenge.is_supported_time_control, hs]

/-- A challenge carrying a base far outside the configured bounds but no
increment and no days-per-turn. -/
def chalLoneBase : Challenge :=
  { id := "ulm1"
    rated := false
    variant := "standard"
    perf_name := "Correspondence"
    speed := "blitz"
    increment := none
    base := some 999999
    days := none
    challenger_title := none
    challenger_is_bot := false
    challenger_master_title := none
    challenger_name := "opponent2"
    challenger_rating_int := 1400
    from_self := false }

theorem c9_unlimited_branch_witness :
    chalLoneBase.is_supported_time_control cfgOpen = true :=
  (c9_unlimited_branch chalLoneBase cfgOpen rfl (Or.inr rfl)).trans (by decide)

/-- C1: on a non-self challenge `is_supported` returns exactly the
first-failing reason of the spec's ordered check list (accepting iff
none fails); in particular a challenge failing both the bot-acceptance
check and the variant check is declined with "noBot", never "variant". -/
theorem c1_first_failure_wins (c : Challenge) (cfg : Configuration)
    (m : RecentMap) (now : ℚ) (h : c.from_self = false) :
    (c.is_supported cfg m now).1 =
        ((firstDeclineReason c cfg m now).isNone, firstDeclineReason c cfg m now)
    ∧ ((cfg.accept_bot || !c.challenger_is_bot) = false →
        c.is_supported_variant cfg = false →
        (c.is_supported cfg m now).1 = (false, some "noBot")) := by
  have hmain : (c.is_supported cfg m now).1 =
      ((firstDeclineReason c cfg m now).isNone, firstDeclineReason c cfg m now) := by
    cases h1 : (cfg.accept_bot || !c.challenger_is_bot) <;>
    cases h2 : (!cfg.only_bot || c.challenger_is_bot) <;>
    cases h3 : c.is_supported_time_control cfg <;>
    cases h4 : c.is_supported_variant cfg <;>
    cases h5 : c.is_supported_mode cfg <;>
    by_cases h6 : c.challenger_name ∈ cfg.block_list <;>
    cases h7 : (c.is_supported_recent cfg m now).1 <;>
    simp [Challenge.is_supported, is_supported_catch, Challenge.is_supported_inner,
      firstDeclineReason, specCheckList, Challenge.decline_due_to, Option.orElse,
      h, h1, h2, h3, h4, h5, h6, h7]
  refine ⟨hmain, fun h1 _ => ?_⟩
  rw [hmain]
  simp [firstDeclineReason, specCheckList, h1]

/-- A bot challenge with an unsupported variant, against a configuration
that refuses bots. -/
def chalBotOddVariant : Challenge :=
  { id := "bot1"
    rated := false
    variant := "antichess"
    perf_name := "Antichess"
    speed := "blitz"
    increment := some 0
    base := some 60
    days := none
    challenger_title := some "BOT"
    challenger_is_bot := true
    challenger_master_title := none
    challenger_name := "somebot"
    challenger_rating_int := 2200
    from_self := false }

/-- A configuration that does not accept bot challengers. -/
def cfgNoBots : Configuration :=
  { cfgOpen with accept_bot := false }

theorem c1_first_failure_wins_witness :
    (chalBotOddVariant.is_supported cfgNoBots emptyRecent 0).1 = (false, some "noBot") :=
  (c1_first_failure_wins chalBotOddVariant cfgNoBots emptyRecent 0 rfl).2
    (by decide) (by decide)

/-- A white-player payload for concrete games. -/
def pjWhite : PlayerJson :=
  { name := some "Me", title := none, rating := some 1500,
    provisional := none, aiLevel := none }

/-- A black-player payload for concrete games. -/
def pjBlack : PlayerJson :=
  { name := some "Rival", title := none, rating := some 1510,
    provisional := none, aiLevel := none }

/-- A game payload with no clock object at all. -/
def gjNoClock : GameJson :=
  { id := some "game0001"
    speed := some "correspondence"
    clock := none
    perf := some (some "Correspondence")
    variant_name := "Standard"
    white := pjWhite
    black := pjBlack
    initialFen := none
    state := { moves := [], wtime := 1000, btime := 1000 } }

/-- C5 counterexample: on a payload without a clock object the stored
clock increment is 0, not ten years in milliseconds as claimed. -/
theorem c5_clock_defaults_counterexample :
    gjNoClock.clock = none ∧
    (Game.init gjNoClock "me" "https://host/" 20 0).clock_increment ≠ ten_years_in_ms :=
  ⟨rfl, by decide⟩

/-- C5 (amended): an absent clock object or absent initial field makes
the stored clock initial default to ten years in milliseconds, an absent
increment field makes the stored increment default to 0, and present
fields are stored exactly. -/
theorem c5_clock_defaults (j : GameJson) (u bu : String) (abt now : ℚ) :
    ((j.clock = none ∨ (∃ ci, j.clock = some ci ∧ ci.initial = none)) →
      (Game.init j u bu abt now).clock_initial = ten_years_in_ms)
    ∧ (∀ ci v, j.clock = some ci → ci.initial = some v →
        (Game.init j u bu abt now).clock_initial = v)
    ∧ ((j.clock = none ∨ (∃ ci, j.clock = some ci ∧ ci.increment = none)) →
      (Game.init j u bu abt now).clock_increment = 0)
    ∧ (∀ ci v, j.clock = some ci → ci.increment = some v →
        (Game.init j u bu abt now).clock_increment = v) := by
  refine ⟨?_, ?_, ?_, ?_⟩
  · rintro (hc | ⟨ci, hc, hi⟩)
    · simp [Game.init, hc]
    · simp [Game.init, hc, hi]
  · intro ci v hc hi
    simp [Game.init, hc, hi]
  · rintro (hc | ⟨ci, hc, hi⟩)
    · simp [Game.init, hc]
    · simp [Game.init, hc, hi]
  · intro ci v hc hi
    simp [Game.init, hc, hi]

/-- A game payload with both clock fields present. -/
def gjWithClock : GameJson :=
  { gjNoClock with
    id := some "game0002"
    speed := some "blitz"
    clock := some { initial := some 300000, increment := some 2000 }
    perf := some (some "Blitz") }

theorem c5_clock_defaults_witness :
    (Game.init gjWithClock "me" "https://host/" 20 0).clock_initial = 300000 ∧
    (Game.init gjNoClock "me" "https://host/" 20 0).clock_initial = ten_years_in_ms :=
  ⟨(c5_clock_defaults gjWithClock "me" "https://host/" 20 0).2.1
      { initial := some 300000, increment := some 2000 } 300000 rfl rfl,
   (c5_clock_defaults gjNoClock "me" "https://host/" 20 0).1 (Or.inl rfl)⟩

/-- C7 (amended): a game whose recorded move string has reached 6
characters is never abort-eligible, whatever the abort timer says — in
particular any game recording a join of at least 6 nonempty moves; and
while the move string is still shorter than 6 characters,
`should_abort_now` agrees with the abort timer's expiry. -/
theorem c7_should_abort (g : Game) (now : ℚ) :
    (6 ≤ g.state.moves.length → g.should_abort_now now = false)
    ∧ ((∃ ms, g.state.moves = joinMoves ms ∧ (∀ m ∈ ms, m ≠ []) ∧ 6 ≤ ms.length) →
      g.should_abort_now now = false)
    ∧ (g.state.moves.length < 6 →
        g.should_abort_now now = g.abort_time.is_expired now) := by
  have hlong : ∀ _ : 6 ≤ g.state.moves.length, g.should_abort_now now = false := by
    intro h6
    have hge : ¬ (g.state.moves.length < 6) := by omega
    simp [Game.should_abort_now, Game.is_abortable, hge]
  refine ⟨hlong, ?_, ?_⟩
  · rintro ⟨ms, hmv, hne, h6⟩
    have hj := joinMoves_length_ge ms hne
    exact hlong (by rw [hmv]; omega)
  · intro hlt
    simp [Game.should_abort_now, Game.is_abortable, hlt]

/-- Two played moves. -/
def movesTwo : List (List Char) := ["e2e4".toList, "e7e5".toList]

/-- Six played moves. -/
def movesSix : List (List Char) :=
  ["e2e4".toList, "e7e5".toList, "g1f3".toList, "b8c6".toList,
   "f1b5".toList, "a7a6".toList]

/-- A game payload recording two played moves, "e2e4 e7e5". -/
def gjTwoMoves : GameJson :=
  { gjNoClock with
    id := some "game0003"
    speed := some "blitz"
    clock := some { initial := some 300000, increment := some 2000 }
    state := { moves := joinMoves movesTwo, wtime := 200000, btime := 200000 } }

/-- C7 counterexample: a game with two moves played — fewer than 6 — is
already past the 6-character bound, so `should_abort_now` is false even
though its abort timer is expired, contradicting the claim's "fewer than
6 moves played, true iff expired" half. -/
theorem c7_should_abort_counterexample :
    (Game.init gjTwoMoves "me" "https://host/" 20 0).state.moves = joinMoves movesTwo
    ∧ movesTwo.length < 6
    ∧ (Game.init gjTwoMoves "me" "https://host/" 20 0).abort_time.is_expired 100 = true
    ∧ (Game.init gjTwoMoves "me" "https://host/" 20 0).should_abort_now 100 = false := by
  refine ⟨rfl, by decide, ?_, rfl⟩
  simp [Game.init, Timer.is_expired]
  norm_num

/-- A game payload recording six played moves. -/
def gjSixMoves : GameJson :=
  { gjTwoMoves with
    id := some "game0004"
    state := { moves := joinMoves movesSix, wtime := 150000, btime := 150000 } }

/-- A game payload recording a single played move, "e2e4". -/
def gjOneMove : GameJson :=
  { gjTwoMoves with
    id := some "game0005"
    state := { moves := "e2e4".toList, wtime := 250000, btime := 250000 } }

theorem c7_should_abort_witness :
    (Game.init gjTwoMoves "me" "https://host/" 20 0).should_abort_now 100 = false ∧
    (Game.init gjSixMoves "me" "https://host/" 20 0).should_abort_now 100 = false ∧
    (Game.init gjOneMove "me" "https://host/" 20 0).should_abort_now 100 =
      (Game.init gjOneMove "me" "https://host/" 20 0).abort_time.is_expired 100 :=
  ⟨(c7_should_abort (Game.init gjTwoMoves "me" "https://host/" 20 0) 100).1 (by decide),
   (c7_should_abort (Game.init gjSixMoves "me" "https://host/" 20 0) 100).2.1
      ⟨movesSix, rfl, by decide, by decide⟩,
   (c7_should_abort (Game.init gjOneMove "me" "https://host/" 20 0) 100).2.2 (by decide)⟩

end LichessBot
